import Mathlib

/-!
Shallow embedding of the multi-step checkout wizard
(CheckoutFormComponent in the repository source): its form state,
per-step validators, step navigation (nextStep / previousStep),
order placement (placeOrder) and totals computation (getTotals),
together with theorems settling the specification claims.

Numbers that are JavaScript floating-point values in the source are
modelled as exact rationals; every concrete figure appearing in the
claims is representable exactly at the precision the program prints.
-/

/-- One form control: a current value plus the has-been-visited
("touched") interaction flag tracked by the form framework. -/
structure FormControl (α : Type) where
  value : α
  touched : Bool
deriving DecidableEq

/-- One entry of the simulated shopping cart (component field cartItems). -/
structure CartItem where
  id : Nat
  name : String
  price : ℚ
  quantity : ℚ
deriving DecidableEq

/-- One entry of the fixed shipping-method list. -/
structure ShippingMethod where
  id : String
  name : String
  price : ℚ
deriving DecidableEq

/-- One entry of the fixed payment-method list. -/
structure PaymentMethod where
  id : String
  name : String
deriving DecidableEq

/-- Step 1 form group (cartForm): an items control holding the cart
list and a shippingMethod control. -/
structure CartForm where
  items : FormControl (List CartItem)
  shippingMethod : FormControl String
deriving DecidableEq

/-- Step 2 form group (shippingForm). -/
structure ShippingForm where
  firstName : FormControl String
  lastName : FormControl String
  email : FormControl String
  phone : FormControl String
  address : FormControl String
  city : FormControl String
  postalCode : FormControl String
  country : FormControl String
deriving DecidableEq

/-- Step 3 form group (paymentForm). -/
structure PaymentForm where
  paymentMethod : FormControl String
  cardName : FormControl String
  cardNumber : FormControl String
  expiryDate : FormControl String
  cvv : FormControl String
  billingAddress : FormControl Bool
deriving DecidableEq

/-- Step 4 form group (confirmationForm). -/
structure ConfirmationForm where
  acceptTerms : FormControl Bool
  acceptPrivacy : FormControl Bool
deriving DecidableEq

/-- The rendered totals (getTotals returns toFixed(2) strings). -/
structure Totals where
  subtotal : String
  shipping : String
  tax : String
  total : String
deriving DecidableEq

/-- The value snapshot of the cart form (cartForm.value). -/
structure CartValue where
  items : List CartItem
  shippingMethod : String
deriving DecidableEq

/-- The value snapshot of the shipping form (shippingForm.value). -/
structure ShippingValue where
  firstName : String
  lastName : String
  email : String
  phone : String
  address : String
  city : String
  postalCode : String
  country : String
deriving DecidableEq

/-- The payment part stored on the order (only method and cardName). -/
structure PaymentSummary where
  method : String
  cardName : String
deriving DecidableEq

/-- The value snapshot of the payment form. -/
structure PaymentValue where
  paymentMethod : String
  cardName : String
  cardNumber : String
  expiryDate : String
  cvv : String
  billingAddress : Bool
deriving DecidableEq

/-- The value snapshot of the confirmation form. -/
structure ConfirmationValue where
  acceptTerms : Bool
  acceptPrivacy : Bool
deriving DecidableEq

/-- The order summary built by placeOrder.  The wall clock consumed by
the source for the order number and the locale-formatted date is
abstracted as a single natural-number timestamp. -/
structure OrderData where
  cart : CartValue
  shipping : ShippingValue
  payment : PaymentSummary
  totals : Totals
  orderNumber : String
  date : Nat
deriving DecidableEq

/-- The component state: current step position, the simulated cart,
the four form groups and the optional order summary.  The position is
an integer (a JavaScript number in the source), not a bounded type;
its bounds are proved, not assumed. -/
structure CheckoutState where
  currentStep : Int
  cartItems : List CartItem
  cartForm : CartForm
  shippingForm : ShippingForm
  paymentForm : PaymentForm
  confirmationForm : ConfirmationForm
  orderData : Option OrderData
deriving DecidableEq

/-- Component field totalSteps = 4 (never reassigned). -/
def totalSteps : Int := 4

/-- Component field taxRate = 0.2 (never reassigned). -/
def taxRate : ℚ := 0.2

/-! ## Validator semantics

Each control's validators are translated from the framework's built-in
validators as used in initializeForms: required fails on the empty
string; minLength, pattern and email pass on the empty string (they
leave emptiness to required); requiredTrue requires the boolean value
to equal true. -/

/-- Validators.required on a string control. -/
def requiredStr (s : String) : Bool := !s.isEmpty

/-- Validators.minLength k: passes on empty input, else needs length at least k. -/
def minLengthOk (k : Nat) (s : String) : Bool := s.isEmpty || decide (k ≤ s.length)

/-- Validators.pattern p: passes on empty input, else the whole string must match. -/
def patternOk (p : String → Bool) (s : String) : Bool := s.isEmpty || p s

/-- Validators.requiredTrue on a boolean control: the value must equal true. -/
def requiredTrueOk (b : Bool) : Bool := b

/-- Character class of the phone pattern [0-9\s\-()] (the ASCII
whitespace forms of the regex \s class; the exotic Unicode space
characters it also admits play no role in any claim). -/
def isPhoneChar (c : Char) : Bool :=
  c.isDigit || c = ' ' || c = '\t' || c = '\n' || c = '\r' ||
  c = Char.ofNat 11 || c = Char.ofNat 12 || c = '-' || c = '(' || c = ')'

/-- The phone pattern of the shipping form: an optional leading plus
sign followed by one or more characters of the class above, anchored
at both ends. -/
def phoneMatch (s : String) : Bool :=
  let rest := match s.data with
    | '+' :: r => r
    | r => r
  !rest.isEmpty && rest.all isPhoneChar

/-- Exactly n ASCII digits (the postal-code and card-number patterns). -/
def digitsExactly (n : Nat) (s : String) : Bool :=
  decide (s.data.length = n) && s.data.all Char.isDigit

/-- The CVV pattern: three or four ASCII digits. -/
def cvvMatch (s : String) : Bool :=
  (decide (s.data.length = 3) || decide (s.data.length = 4)) && s.data.all Char.isDigit

/-- The expiry pattern MM/YY: month 01 to 12, slash, two digits. -/
def expiryMatch (s : String) : Bool :=
  match s.data with
  | [a, b, sl, c, d] =>
      sl = '/' && c.isDigit && d.isDigit &&
      ((a = '0' && b.isDigit && !(b = '0')) ||
       (a = '1' && (b = '0' || b = '1' || b = '2')))
  | _ => false

/-- Splitting a character list at every occurrence of a separator
character; used to decompose the email candidate exactly where the
framework's email regular expression structures it. -/
def splitChar (sep : Char) : List Char → List (List Char)
  | [] => [[]]
  | c :: cs =>
      match splitChar sep cs with
      | [] => if c = sep then [[], [c]] else [[c]]
      | g :: gs => if c = sep then [] :: g :: gs else (c :: g) :: gs

/-- Characters admitted in a local-part atom of the framework's email
pattern: alphanumerics and the punctuation of the character class
(apostrophe and backquote written via their code points). -/
def isAtomChar (c : Char) : Bool :=
  c.isAlpha || c.isDigit ||
  c = '!' || c = '#' || c = '$' || c = '%' || c = '&' || c = Char.ofNat 39 ||
  c = '*' || c = '+' || c = '/' || c = '=' || c = '?' || c = '^' || c = '_' ||
  c = Char.ofNat 96 || c = Char.ofNat 123 || c = '|' || c = Char.ofNat 125 ||
  c = '~' || c = '-'

/-- One dot-separated domain label of the email pattern: one to 63
characters, alphanumeric at both ends, alphanumerics or hyphens inside. -/
def isDomainLabel (l : List Char) : Bool :=
  !l.isEmpty && decide (l.length ≤ 63) &&
  (l.head?.elim false fun c => c.isAlpha || c.isDigit) &&
  (l.getLast?.elim false fun c => c.isAlpha || c.isDigit) &&
  l.all (fun c => c.isAlpha || c.isDigit || c = '-')

/-- Validators.email semantics: the framework's email regular
expression requires a total length of at most 254 characters, a single
at-sign preceded by at most 64 characters, a local part of non-empty
dot-separated atoms, and a domain of dot-separated labels. -/
def emailMatch (s : String) : Bool :=
  match splitChar '@' s.data with
  | [lp, dp] =>
      decide (s.data.length ≤ 254) && decide (1 ≤ lp.length) && decide (lp.length ≤ 64) &&
      (splitChar '.' lp).all (fun a => !a.isEmpty && a.all isAtomChar) &&
      (splitChar '.' dp).all isDomainLabel
  | _ => false

/-- Validators.email as attached to a control: passes on empty input. -/
def emailOk (s : String) : Bool := s.isEmpty || emailMatch s

/-! ## Per-step validity

One derived validity predicate per form group, the conjunction of the
validators attached to each control in initializeForms.  Controls with
no validators (items, billingAddress) are always valid. -/

/-- Validity of the cart form: shippingMethod is required. -/
def cartFormValid (f : CartForm) : Bool :=
  requiredStr f.shippingMethod.value

/-- Validity of the shipping form. -/
def shippingFormValid (f : ShippingForm) : Bool :=
  (requiredStr f.firstName.value && minLengthOk 2 f.firstName.value) &&
  (requiredStr f.lastName.value && minLengthOk 2 f.lastName.value) &&
  (requiredStr f.email.value && emailOk f.email.value) &&
  (requiredStr f.phone.value && patternOk phoneMatch f.phone.value) &&
  (requiredStr f.address.value && minLengthOk 5 f.address.value) &&
  (requiredStr f.city.value && minLengthOk 2 f.city.value) &&
  (requiredStr f.postalCode.value && patternOk (digitsExactly 5) f.postalCode.value) &&
  requiredStr f.country.value

/-- Validity of the payment form.  The card-field validators are
attached unconditionally in initializeForms: no validator consults the
selected payment method. -/
def paymentFormValid (f : PaymentForm) : Bool :=
  requiredStr f.paymentMethod.value &&
  (requiredStr f.cardName.value && minLengthOk 5 f.cardName.value) &&
  (requiredStr f.cardNumber.value && patternOk (digitsExactly 16) f.cardNumber.value) &&
  (requiredStr f.expiryDate.value && patternOk expiryMatch f.expiryDate.value) &&
  (requiredStr f.cvv.value && patternOk cvvMatch f.cvv.value)

/-- Validity of the confirmation form: both flags must equal true. -/
def confirmationFormValid (f : ConfirmationForm) : Bool :=
  requiredTrueOk f.acceptTerms.value && requiredTrueOk f.acceptPrivacy.value

/-! ## Step-to-form lookup and navigation -/

/-- Reference to one of the four form groups, standing for the object
reference the source switches return. -/
inductive FormRef where
  | cart
  | shipping
  | payment
  | confirmation
deriving DecidableEq

/-- getFormAtStep: the switch over an arbitrary step number, returning
null (none) outside cases 1 to 4. -/
def getFormAtStep (step : Int) : Option FormRef :=
  if step = 1 then some FormRef.cart
  else if step = 2 then some FormRef.shipping
  else if step = 3 then some FormRef.payment
  else if step = 4 then some FormRef.confirmation
  else none

/-- getCurrentForm: the separate, syntactically identical switch over
the current step position. -/
def getCurrentForm (st : CheckoutState) : Option FormRef :=
  if st.currentStep = 1 then some FormRef.cart
  else if st.currentStep = 2 then some FormRef.shipping
  else if st.currentStep = 3 then some FormRef.payment
  else if st.currentStep = 4 then some FormRef.confirmation
  else none

/-- Validity of the referenced form group in a given state. -/
def formValid (st : CheckoutState) : FormRef → Bool
  | FormRef.cart => cartFormValid st.cartForm
  | FormRef.shipping => shippingFormValid st.shippingForm
  | FormRef.payment => paymentFormValid st.paymentForm
  | FormRef.confirmation => confirmationFormValid st.confirmationForm

/-- markAsTouched over every control of the cart form. -/
def markCartTouched (f : CartForm) : CartForm :=
  { items := ⟨f.items.value, true⟩,
    shippingMethod := ⟨f.shippingMethod.value, true⟩ }

/-- markAsTouched over every control of the shipping form. -/
def markShippingTouched (f : ShippingForm) : ShippingForm :=
  { firstName := ⟨f.firstName.value, true⟩,
    lastName := ⟨f.lastName.value, true⟩,
    email := ⟨f.email.value, true⟩,
    phone := ⟨f.phone.value, true⟩,
    address := ⟨f.address.value, true⟩,
    city := ⟨f.city.value, true⟩,
    postalCode := ⟨f.postalCode.value, true⟩,
    country := ⟨f.country.value, true⟩ }

/-- markAsTouched over every control of the payment form. -/
def markPaymentTouched (f : PaymentForm) : PaymentForm :=
  { paymentMethod := ⟨f.paymentMethod.value, true⟩,
    cardName := ⟨f.cardName.value, true⟩,
    cardNumber := ⟨f.cardNumber.value, true⟩,
    expiryDate := ⟨f.expiryDate.value, true⟩,
    cvv := ⟨f.cvv.value, true⟩,
    billingAddress := ⟨f.billingAddress.value, true⟩ }

/-- markAsTouched over every control of the confirmation form. -/
def markConfirmationTouched (f : ConfirmationForm) : ConfirmationForm :=
  { acceptTerms := ⟨f.acceptTerms.value, true⟩,
    acceptPrivacy := ⟨f.acceptPrivacy.value, true⟩ }

/-- markFormTouched: for a null argument it returns at once; otherwise
it marks every control of the referenced form as touched, leaving all
values, the position and the order data unchanged. -/
def markFormTouched (st : CheckoutState) : Option FormRef → CheckoutState
  | none => st
  | some FormRef.cart => { st with cartForm := markCartTouched st.cartForm }
  | some FormRef.shipping => { st with shippingForm := markShippingTouched st.shippingForm }
  | some FormRef.payment => { st with paymentForm := markPaymentTouched st.paymentForm }
  | some FormRef.confirmation =>
      { st with confirmationForm := markConfirmationTouched st.confirmationForm }

/-- nextStep: when the current form exists and is valid, the position
is incremented only while strictly below totalSteps; otherwise
markFormTouched is invoked on the current form (a no-op when the
current form is null).  The function is total: no error is raised. -/
def nextStep (st : CheckoutState) : CheckoutState :=
  match getCurrentForm st with
  | some f =>
      if formValid st f then
        if st.currentStep < totalSteps then
          { st with currentStep := st.currentStep + 1 }
        else st
      else markFormTouched st (some f)
  | none => markFormTouched st none

/-- previousStep: decrement the position when it is above one,
otherwise do nothing.  No validity is consulted. -/
def previousStep (st : CheckoutState) : CheckoutState :=
  if 1 < st.currentStep then { st with currentStep := st.currentStep - 1 } else st

/-! ## Totals -/

/-- Rendering of a rational currency amount with toFixed(2): the value
is scaled by 100, rounded to the nearest integer, and printed with two
decimal digits. -/
def toFixed2 (q : ℚ) : String :=
  let n : Int := round (q * 100)
  let m := n.natAbs
  (if n < 0 then ("-") else ("")) ++ toString (m / 100) ++ "." ++
    (if m % 100 < 10 then ("0") else ("")) ++ toString (m % 100)

/-- The subtotal reduction over the cart items: sum of price times
quantity, starting from zero. -/
def cartSubtotal (items : List CartItem) : ℚ :=
  items.foldl (fun sum it => sum + it.price * it.quantity) 0

/-- The fixed shipping-method list of the component. -/
def shippingMethods : List ShippingMethod :=
  [ ⟨"standard", "Standard (5-7 jours)", 5.99⟩,
    ⟨"express", "Express (2-3 jours)", 14.99⟩,
    ⟨"overnight", "Nuit (livraison le lendemain)", 29.99⟩ ]

/-- The fixed payment-method list of the component. -/
def paymentMethods : List PaymentMethod :=
  [ ⟨"card", "Carte de Crédit"⟩,
    ⟨"paypal", "PayPal"⟩,
    ⟨"bank", "Virement Bancaire"⟩ ]

/-- The shipping-cost lookup of getTotals: the price of the list entry
whose id equals the selected shipping method, or zero when no entry
matches.  (The source writes the fallback with a falsy-or; the only
price the lookup can produce that the or coalesces identically is zero
itself, so the translation is exact.) -/
def shippingCostOf (st : CheckoutState) : ℚ :=
  match shippingMethods.find? (fun m => m.id == st.cartForm.shippingMethod.value) with
  | some m => m.price
  | none => 0

/-- getTotals: subtotal over the component cart, shipping-cost lookup,
tax on their sum, and the grand total, each rendered with toFixed(2).
The source binds the intermediate sums to local constants; they are
inlined here. -/
def getTotals (st : CheckoutState) : Totals :=
  { subtotal := toFixed2 (cartSubtotal st.cartItems),
    shipping := toFixed2 (shippingCostOf st),
    tax := toFixed2 ((cartSubtotal st.cartItems + shippingCostOf st) * taxRate),
    total := toFixed2 ((cartSubtotal st.cartItems + shippingCostOf st) +
      (cartSubtotal st.cartItems + shippingCostOf st) * taxRate) }

/-! ## Order placement -/

/-- The value snapshot of the cart form. -/
def cartFormValue (f : CartForm) : CartValue :=
  ⟨f.items.value, f.shippingMethod.value⟩

/-- The value snapshot of the shipping form. -/
def shippingFormValue (f : ShippingForm) : ShippingValue :=
  ⟨f.firstName.value, f.lastName.value, f.email.value, f.phone.value,
   f.address.value, f.city.value, f.postalCode.value, f.country.value⟩

/-- The value snapshot of the payment form. -/
def paymentFormValue (f : PaymentForm) : PaymentValue :=
  ⟨f.paymentMethod.value, f.cardName.value, f.cardNumber.value,
   f.expiryDate.value, f.cvv.value, f.billingAddress.value⟩

/-- The value snapshot of the confirmation form. -/
def confirmationFormValue (f : ConfirmationForm) : ConfirmationValue :=
  ⟨f.acceptTerms.value, f.acceptPrivacy.value⟩

/-- placeOrder: when the confirmation form is valid, store an order
summary built from the current form values, the computed totals, and
the wall clock (abstracted as the parameter now, which the source
turns into the ORD- order number and the locale date); otherwise leave
the state entirely unchanged.  No position is consulted. -/
def placeOrder (now : Nat) (st : CheckoutState) : CheckoutState :=
  if confirmationFormValid st.confirmationForm then
    { st with orderData := some (
        { cart := cartFormValue st.cartForm,
          shipping := shippingFormValue st.shippingForm,
          payment := ⟨st.paymentForm.paymentMethod.value, st.paymentForm.cardName.value⟩,
          totals := getTotals st,
          orderNumber := "ORD-" ++ toString now,
          date := now : OrderData }) }
  else st

/-! ## Initial state (ngOnInit / initializeForms) -/

/-- The simulated cart of the component. -/
def initialCartItems : List CartItem :=
  [ ⟨1, "Cours Angular Avancé", 99.99, 1⟩,
    ⟨2, "Guide Formulaires", 39.99, 1⟩ ]

/-- The component state right after ngOnInit ran initializeForms: step
one, the prefilled form values, every control untouched, no order. -/
def initialState : CheckoutState :=
  { currentStep := 1,
    cartItems := initialCartItems,
    cartForm :=
      { items := ⟨initialCartItems, false⟩,
        shippingMethod := ⟨"standard", false⟩ },
    shippingForm :=
      { firstName := ⟨"Jean", false⟩,
        lastName := ⟨"Dupont", false⟩,
        email := ⟨"jean.dupont@example.com", false⟩,
        phone := ⟨"+33 6 12 34 56 78", false⟩,
        address := ⟨"123 Rue de Paris", false⟩,
        city := ⟨"Paris", false⟩,
        postalCode := ⟨"75001", false⟩,
        country := ⟨"FR", false⟩ },
    paymentForm :=
      { paymentMethod := ⟨"card", false⟩,
        cardName := ⟨"Jean Dupont", false⟩,
        cardNumber := ⟨"4111111111111111", false⟩,
        expiryDate := ⟨"12/25", false⟩,
        cvv := ⟨"123", false⟩,
        billingAddress := ⟨true, false⟩ },
    confirmationForm :=
      { acceptTerms := ⟨false, false⟩,
        acceptPrivacy := ⟨false, false⟩ },
    orderData := none }

/-! ## The operation alphabet of a wizard session

A session is driven by discrete user events: the next and previous
navigation clicks, the place-order click (carrying the wall clock it
observes), and form interaction between clicks.  An edit event
replaces the contents of the four form groups; it subsumes any batch
of field edits and blur-driven touch updates and cannot reach the
position, the cart list or the stored order. -/
inductive Op where
  | next : Op
  | prev : Op
  | place : Nat → Op
  | edit : CartForm → ShippingForm → PaymentForm → ConfirmationForm → Op

/-- One operation applied to a session state. -/
def applyOp (st : CheckoutState) : Op → CheckoutState
  | Op.next => nextStep st
  | Op.prev => previousStep st
  | Op.place now => placeOrder now st
  | Op.edit c s p cf =>
      { st with cartForm := c, shippingForm := s, paymentForm := p, confirmationForm := cf }

/-- A whole session: the operations applied in order from a state. -/
def runOps : CheckoutState → List Op → CheckoutState
  | st, [] => st
  | st, o :: ops => runOps (applyOp st o) ops

/-- Whether an operation sequence contains a place-order event fired
at a moment when the confirmation form was then valid. -/
def placedValidly : CheckoutState → List Op → Bool
  | _, [] => false
  | st, o :: ops =>
      (match o with
       | Op.place _ => confirmationFormValid st.confirmationForm
       | _ => false) || placedValidly (applyOp st o) ops

/-! ## Observation helpers for the theorems -/

/-- Whether every control of the referenced form carries the touched flag. -/
def allTouched (st : CheckoutState) : FormRef → Bool
  | FormRef.cart => st.cartForm.items.touched && st.cartForm.shippingMethod.touched
  | FormRef.shipping =>
      st.shippingForm.firstName.touched && st.shippingForm.lastName.touched &&
      st.shippingForm.email.touched && st.shippingForm.phone.touched &&
      st.shippingForm.address.touched && st.shippingForm.city.touched &&
      st.shippingForm.postalCode.touched && st.shippingForm.country.touched
  | FormRef.payment =>
      st.paymentForm.paymentMethod.touched && st.paymentForm.cardName.touched &&
      st.paymentForm.cardNumber.touched && st.paymentForm.expiryDate.touched &&
      st.paymentForm.cvv.touched && st.paymentForm.billingAddress.touched
  | FormRef.confirmation =>
      st.confirmationForm.acceptTerms.touched && st.confirmationForm.acceptPrivacy.touched

/-- Two states agree on every field value of every form group. -/
def valuesUnchanged (s t : CheckoutState) : Prop :=
  cartFormValue s.cartForm = cartFormValue t.cartForm ∧
  shippingFormValue s.shippingForm = shippingFormValue t.shippingForm ∧
  paymentFormValue s.paymentForm = paymentFormValue t.paymentForm ∧
  confirmationFormValue s.confirmationForm = confirmationFormValue t.confirmationForm

/-! ## Basic frame lemmas -/

/-- markFormTouched never moves the position. -/
theorem markFormTouched_currentStep (st : CheckoutState) (f : Option FormRef) :
    (markFormTouched st f).currentStep = st.currentStep := by
  cases f with
  | none => rfl
  | some fr => cases fr <;> rfl

/-- markFormTouched never touches the stored order. -/
theorem markFormTouched_orderData (st : CheckoutState) (f : Option FormRef) :
    (markFormTouched st f).orderData = st.orderData := by
  cases f with
  | none => rfl
  | some fr => cases fr <;> rfl

/-- nextStep either leaves the position alone or, strictly below
totalSteps, moves it up by one. -/
theorem nextStep_currentStep (st : CheckoutState) :
    (nextStep st).currentStep = st.currentStep ∨
    ((nextStep st).currentStep = st.currentStep + 1 ∧ st.currentStep < totalSteps) := by
  cases h : getCurrentForm st with
  | none =>
      simp only [nextStep, h]
      exact Or.inl (markFormTouched_currentStep st none)
  | some f =>
      by_cases hv : formValid st f = true
      · by_cases h4 : st.currentStep < totalSteps
        · simp only [nextStep, h, hv, if_true, if_pos h4]
          exact Or.inr ⟨trivial, h4⟩
        · simp only [nextStep, h, hv, if_true, if_neg h4]
          exact Or.inl trivial
      · rw [Bool.not_eq_true] at hv
        simp only [nextStep, h, hv, Bool.false_eq_true, if_false]
        exact Or.inl (markFormTouched_currentStep st (some f))

/-- nextStep never touches the stored order. -/
theorem nextStep_orderData (st : CheckoutState) :
    (nextStep st).orderData = st.orderData := by
  cases h : getCurrentForm st with
  | none =>
      simp only [nextStep, h]
      exact markFormTouched_orderData st none
  | some f =>
      by_cases hv : formValid st f = true
      · by_cases h4 : st.currentStep < totalSteps
        · simp only [nextStep, h, hv, if_true, if_pos h4]
        · simp only [nextStep, h, hv, if_true, if_neg h4]
      · rw [Bool.not_eq_true] at hv
        simp only [nextStep, h, hv, Bool.false_eq_true, if_false]
        exact markFormTouched_orderData st (some f)

/-- previousStep either leaves the position alone or, strictly above
one, moves it down by one. -/
theorem previousStep_currentStep (st : CheckoutState) :
    (previousStep st).currentStep = st.currentStep ∨
    ((previousStep st).currentStep = st.currentStep - 1 ∧ 1 < st.currentStep) := by
  unfold previousStep
  by_cases h : 1 < st.currentStep
  · rw [if_pos h]
    exact Or.inr ⟨rfl, h⟩
  · rw [if_neg h]
    exact Or.inl rfl

/-- placeOrder never moves the position. -/
theorem placeOrder_currentStep (now : Nat) (st : CheckoutState) :
    (placeOrder now st).currentStep = st.currentStep := by
  unfold placeOrder
  by_cases h : confirmationFormValid st.confirmationForm = true
  · rw [if_pos h]
  · rw [if_neg h]

/-! ## Claim theorems -/

/-- Claim C8: markAllVisited (markFormTouched) is idempotent — for
every session state and every (possibly null) form reference, marking
twice in a row yields exactly the state marking once yields; the
second call changes nothing. -/
theorem markFormTouched_idem (st : CheckoutState) (f : Option FormRef) :
    markFormTouched (markFormTouched st f) f = markFormTouched st f := by
  cases f with
  | none => rfl
  | some fr => cases fr <;> rfl

/-- Claim C9: getCurrentForm evaluated at a state whose position is s
returns exactly what getFormAtStep returns at s — the cart form at 1,
the shipping form at 2, the payment form at 3, the confirmation form
at 4, and null for every integer outside one to four; the two
step-to-form switches are equivalent. -/
theorem forms_lookup_equiv (st : CheckoutState) (s : Int) (h : st.currentStep = s) :
    getCurrentForm st = getFormAtStep s ∧
    (getFormAtStep 1 = some FormRef.cart ∧ getFormAtStep 2 = some FormRef.shipping ∧
     getFormAtStep 3 = some FormRef.payment ∧ getFormAtStep 4 = some FormRef.confirmation) ∧
    ((s < 1 ∨ 4 < s) → getFormAtStep s = none) := by
  refine ⟨?_, ⟨rfl, rfl, rfl, rfl⟩, ?_⟩
  · subst h
    rfl
  · intro hs
    unfold getFormAtStep
    rw [if_neg (by omega), if_neg (by omega), if_neg (by omega), if_neg (by omega)]

/-- Witness for claim C9 at the initial state and at position five. -/
theorem forms_lookup_equiv_witness :
    getCurrentForm initialState = getFormAtStep 1 ∧ getFormAtStep 5 = none :=
  ⟨(forms_lookup_equiv initialState 1 rfl).1,
   (forms_lookup_equiv { initialState with currentStep := 5 } 5 rfl).2.2
     (Or.inr (by norm_num))⟩

/-- Claim C6: retreat (previousStep) above position one decrements the
position by exactly one while leaving every form group — values and
interaction flags alike — and the stored order untouched, with no
validity consulted; at position one it is a complete no-op. -/
theorem previousStep_spec (st : CheckoutState) :
    (1 < st.currentStep →
      (previousStep st).currentStep = st.currentStep - 1 ∧
      (previousStep st).cartForm = st.cartForm ∧
      (previousStep st).shippingForm = st.shippingForm ∧
      (previousStep st).paymentForm = st.paymentForm ∧
      (previousStep st).confirmationForm = st.confirmationForm ∧
      (previousStep st).orderData = st.orderData) ∧
    (st.currentStep = 1 → previousStep st = st) := by
  constructor
  · intro h
    unfold previousStep
    rw [if_pos h]
    exact ⟨rfl, rfl, rfl, rfl, rfl, rfl⟩
  · intro h
    unfold previousStep
    rw [if_neg (by omega)]

/-- Witness for claim C6: a retreat from step two reaches step one
with the forms intact, and a retreat at step one does nothing. -/
theorem previousStep_spec_witness :
    ((previousStep (runOps initialState [Op.next])).currentStep =
      (runOps initialState [Op.next]).currentStep - 1 ∧
     (previousStep (runOps initialState [Op.next])).shippingForm =
      (runOps initialState [Op.next]).shippingForm) ∧
    previousStep initialState = initialState :=
  ⟨⟨((previousStep_spec (runOps initialState [Op.next])).1 (by decide)).1,
    ((previousStep_spec (runOps initialState [Op.next])).1 (by decide)).2.2.1⟩,
   (previousStep_spec initialState).2 rfl⟩

/-- Claim C7: placeOrder produces an order summary exactly under the
confirmation form validity, which holds precisely when both acceptance
flags equal true; with either flag false the call is rejected by
leaving the whole session state, the stored order included, unchanged. -/
theorem placeOrder_spec (st : CheckoutState) (now : Nat) :
    (confirmationFormValid st.confirmationForm = true ↔
      (st.confirmationForm.acceptTerms.value = true ∧
       st.confirmationForm.acceptPrivacy.value = true)) ∧
    (st.confirmationForm.acceptTerms.value = true →
      st.confirmationForm.acceptPrivacy.value = true →
      (placeOrder now st).orderData.isSome = true) ∧
    (confirmationFormValid st.confirmationForm = false → placeOrder now st = st) := by
  have hiff : confirmationFormValid st.confirmationForm = true ↔
      (st.confirmationForm.acceptTerms.value = true ∧
       st.confirmationForm.acceptPrivacy.value = true) := by
    unfold confirmationFormValid requiredTrueOk
    rw [Bool.and_eq_true]
  refine ⟨hiff, ?_, ?_⟩
  · intro h1 h2
    unfold placeOrder
    rw [if_pos (hiff.mpr ⟨h1, h2⟩)]
    rfl
  · intro h
    unfold placeOrder
    rw [if_neg (by simp [h])]

/-- The confirmation form with both acceptance flags set. -/
def confirmAccepted : ConfirmationForm := ⟨⟨true, false⟩, ⟨true, false⟩⟩

/-- Witness for claim C7: with both flags accepted an order appears;
at the initial state (flags false) the call changes nothing. -/
theorem placeOrder_spec_witness :
    (placeOrder 0 { initialState with confirmationForm := confirmAccepted }).orderData.isSome = true ∧
    placeOrder 0 initialState = initialState :=
  ⟨(placeOrder_spec { initialState with confirmationForm := confirmAccepted } 0).2.1 rfl rfl,
   (placeOrder_spec initialState 0).2.2 rfl⟩

/-- Claim C1 (amended): nextStep with a valid current form strictly
below the last step advances the position by one and changes nothing
else; with an invalid current form it leaves the position where it is,
flips every visited flag of that form and preserves all field values;
with a valid current form at the last step — and equally with no
current form — it is a complete no-op.  Being a total function, it
never raises an error. -/
theorem nextStep_cases (st : CheckoutState) :
    (∀ f, getCurrentForm st = some f → formValid st f = true →
      st.currentStep < totalSteps →
      nextStep st = { st with currentStep := st.currentStep + 1 }) ∧
    (∀ f, getCurrentForm st = some f → formValid st f = false →
      (nextStep st).currentStep = st.currentStep ∧
      allTouched (nextStep st) f = true ∧
      valuesUnchanged st (nextStep st)) ∧
    (∀ f, getCurrentForm st = some f → formValid st f = true →
      totalSteps ≤ st.currentStep → nextStep st = st) ∧
    (getCurrentForm st = none → nextStep st = st) := by
  refine ⟨?_, ?_, ?_, ?_⟩
  · intro f hf hv h4
    simp only [nextStep, hf, hv, if_true, if_pos h4]
  · intro f hf hv
    simp only [nextStep, hf, hv, Bool.false_eq_true, if_false]
    refine ⟨markFormTouched_currentStep st (some f), ?_, ?_⟩
    · cases f <;> rfl
    · cases f <;> exact ⟨rfl, rfl, rfl, rfl⟩
  · intro f hf hv h4
    simp only [nextStep, hf, hv, if_true]
    rw [if_neg (not_lt.mpr h4)]
  · intro h
    simp only [nextStep, h]
    rfl

/-- Witness for the amended claim C1: at the initial state a valid
cart advances one to two; at step four with the untouched (invalid)
confirmation form the flags all get flipped; at the formless position
nine nothing happens. -/
theorem nextStep_cases_witness :
    nextStep initialState = { initialState with currentStep := initialState.currentStep + 1 } ∧
    allTouched (nextStep { initialState with currentStep := 4 }) FormRef.confirmation = true ∧
    nextStep { initialState with currentStep := 9 } = { initialState with currentStep := 9 } :=
  ⟨(nextStep_cases initialState).1 FormRef.cart (by decide) (by decide) (by decide),
   ((nextStep_cases { initialState with currentStep := 4 }).2.1 FormRef.confirmation
     (by decide) (by decide)).2.1,
   (nextStep_cases { initialState with currentStep := 9 }).2.2.2 (by decide)⟩

/-- The session reached by accepting both confirmation flags and then
advancing through the three valid earlier steps: position four with a
valid, entirely unvisited confirmation form. -/
def atConfirmationValid : CheckoutState :=
  runOps initialState
    [Op.edit initialState.cartForm initialState.shippingForm initialState.paymentForm
       confirmAccepted,
     Op.next, Op.next, Op.next]

/-- Counterexample to claim C1 as stated: at position four with a
valid confirmation form — a case other than valid-and-below-N — the
claim demands markAllVisited to run, yet nextStep leaves every visited
flag false (it does nothing at all). -/
theorem nextStep_validAtLastStep_cex :
    atConfirmationValid.currentStep = 4 ∧
    getCurrentForm atConfirmationValid = some FormRef.confirmation ∧
    formValid atConfirmationValid FormRef.confirmation = true ∧
    atConfirmationValid.confirmationForm.acceptTerms.touched = false ∧
    (nextStep atConfirmationValid).currentStep = atConfirmationValid.currentStep ∧
    (nextStep atConfirmationValid).confirmationForm.acceptTerms.touched = false ∧
    allTouched (nextStep atConfirmationValid) FormRef.confirmation = false := by
  decide

/-- A payment form with paypal selected and every card field empty. -/
def paypalEmptyCard : PaymentForm :=
  ⟨⟨"paypal", false⟩, ⟨"", false⟩, ⟨"", false⟩, ⟨"", false⟩, ⟨"", false⟩, ⟨true, false⟩⟩

/-- Claim C2 (amended): the card-field rules are attached
unconditionally, so with paypal selected the payment step is exactly
as valid as it would be with card selected — the card rules are
evaluated for every payment method — and in particular paypal with an
empty card number leaves the step invalid. -/
theorem paymentValidity_methodIrrelevant (pf : PaymentForm)
    (h : pf.paymentMethod.value = "paypal") :
    paymentFormValid pf =
      paymentFormValid { pf with paymentMethod := ⟨"card", pf.paymentMethod.touched⟩ } ∧
    (pf.cardNumber.value = "" → paymentFormValid pf = false) := by
  constructor
  · unfold paymentFormValid
    rw [h]
    rfl
  · intro hc
    have hre : requiredStr "" = false := rfl
    unfold paymentFormValid
    rw [hc, hre]
    simp

/-- Witness for the amended claim C2 at the paypal form with empty
card fields. -/
theorem paymentValidity_methodIrrelevant_witness :
    paymentFormValid paypalEmptyCard =
      paymentFormValid
        { paypalEmptyCard with paymentMethod := ⟨"card", paypalEmptyCard.paymentMethod.touched⟩ } ∧
    paymentFormValid paypalEmptyCard = false :=
  ⟨(paymentValidity_methodIrrelevant paypalEmptyCard rfl).1,
   (paymentValidity_methodIrrelevant paypalEmptyCard rfl).2 rfl⟩

/-- Counterexample to claim C2 as stated: paypal is selected, yet the
payment step is invalid because the empty card fields are still
evaluated. -/
theorem paymentValidity_paypal_cex :
    paypalEmptyCard.paymentMethod.value = "paypal" ∧
    paymentFormValid paypalEmptyCard = false := by
  decide

/-- One operation keeps the position inside the step range. -/
theorem applyOp_currentStep_bounds (st : CheckoutState) (o : Op)
    (h1 : 1 ≤ st.currentStep) (h2 : st.currentStep ≤ totalSteps) :
    1 ≤ (applyOp st o).currentStep ∧ (applyOp st o).currentStep ≤ totalSteps := by
  cases o with
  | next =>
      simp only [applyOp]
      rcases nextStep_currentStep st with h | ⟨h, hlt⟩
      · rw [h]; exact ⟨h1, h2⟩
      · rw [h]
        unfold totalSteps at *
        omega
  | prev =>
      simp only [applyOp]
      rcases previousStep_currentStep st with h | ⟨h, hlt⟩
      · rw [h]; exact ⟨h1, h2⟩
      · rw [h]
        unfold totalSteps at *
        omega
  | place now =>
      simp only [applyOp]
      rw [placeOrder_currentStep]
      exact ⟨h1, h2⟩
  | edit c s p cf =>
      simp only [applyOp]
      exact ⟨h1, h2⟩

/-- The position bound is preserved along any operation sequence. -/
theorem runOps_currentStep_bounds (ops : List Op) : ∀ st : CheckoutState,
    1 ≤ st.currentStep → st.currentStep ≤ totalSteps →
    1 ≤ (runOps st ops).currentStep ∧ (runOps st ops).currentStep ≤ totalSteps := by
  induction ops with
  | nil => intro st h1 h2; exact ⟨h1, h2⟩
  | cons o ops ih =>
      intro st h1 h2
      have hb := applyOp_currentStep_bounds st o h1 h2
      exact ih (applyOp st o) hb.1 hb.2

/-- Claim C5: in every session state reachable from the initial state
by navigation clicks, order placement and field edits, the position
lies between one and totalSteps = 4 inclusive. -/
theorem currentStep_bounds_reachable (ops : List Op) :
    1 ≤ (runOps initialState ops).currentStep ∧
    (runOps initialState ops).currentStep ≤ totalSteps ∧ totalSteps = 4 := by
  obtain ⟨a, b⟩ := runOps_currentStep_bounds ops initialState (by decide) (by decide)
  exact ⟨a, b, rfl⟩

/-- previousStep never touches the stored order. -/
theorem previousStep_orderData (st : CheckoutState) :
    (previousStep st).orderData = st.orderData := by
  unfold previousStep
  by_cases h : 1 < st.currentStep
  · rw [if_pos h]
  · rw [if_neg h]

/-- One operation produces an order exactly when one already existed
or the operation is a place-order click fired under a then-valid
confirmation form. -/
theorem applyOp_orderData (st : CheckoutState) (o : Op) :
    (applyOp st o).orderData.isSome =
      (st.orderData.isSome ||
        match o with
        | Op.place _ => confirmationFormValid st.confirmationForm
        | _ => false) := by
  cases o with
  | next => simp only [applyOp, nextStep_orderData, Bool.or_false]
  | prev => simp only [applyOp, previousStep_orderData, Bool.or_false]
  | place now =>
      simp only [applyOp]
      by_cases h : confirmationFormValid st.confirmationForm = true
      · unfold placeOrder
        rw [if_pos h, h]
        simp
      · rw [Bool.not_eq_true] at h
        unfold placeOrder
        rw [h]
        simp
  | edit c s p cf => simp only [applyOp, Bool.or_false]

/-- Along any operation sequence, an order exists at the end exactly
when one existed at the start or some place-order click in the
sequence fired under a then-valid confirmation form. -/
theorem runOps_orderData (ops : List Op) : ∀ st : CheckoutState,
    (runOps st ops).orderData.isSome = (st.orderData.isSome || placedValidly st ops) := by
  induction ops with
  | nil =>
      intro st
      simp [runOps, placedValidly]
  | cons o ops ih =>
      intro st
      have hrun : runOps st (o :: ops) = runOps (applyOp st o) ops := rfl
      rw [hrun, ih (applyOp st o), applyOp_orderData st o, Bool.or_assoc]
      congr 1

/-- Claim C4 (amended): starting from the initial session, an order
summary exists after a sequence of operations exactly when the
sequence contains a place-order click fired while the confirmation
form was valid at that moment; the position at that moment is not
constrained, so a summary can exist below the last step. -/
theorem orderData_iff_validPlace (ops : List Op) :
    (runOps initialState ops).orderData.isSome = placedValidly initialState ops := by
  rw [runOps_orderData ops initialState]
  exact Bool.false_or _

/-- The operations refuting the position half of claim C4: accept both
confirmation flags by a field edit, then click place-order while still
at step one. -/
def orderBelowFinalOps : List Op :=
  [Op.edit initialState.cartForm initialState.shippingForm initialState.paymentForm
     confirmAccepted,
   Op.place 0]

/-- Counterexample to claim C4 as stated: after the two operations the
order summary exists although the position is one, strictly below the
final step four. -/
theorem orderData_below_final_cex :
    (runOps initialState orderBelowFinalOps).orderData.isSome = true ∧
    (runOps initialState orderBelowFinalOps).currentStep = 1 ∧
    (runOps initialState orderBelowFinalOps).currentStep < totalSteps := by
  refine ⟨rfl, rfl, by decide⟩

/-- Evaluation of toFixed2 once the scaled rounding is known. -/
theorem toFixed2_round (q : ℚ) (n : Int) (h : round (q * 100) = n) :
    toFixed2 q = (if n < 0 then ("-") else ("")) ++ toString (n.natAbs / 100) ++ "." ++
      (if n.natAbs % 100 < 10 then ("0") else ("")) ++ toString (n.natAbs % 100) := by
  unfold toFixed2
  rw [h]

/-- Totals evaluation for any session whose cart is the component cart
and whose selected shipping method is standard. -/
theorem getTotals_standard_eval (st : CheckoutState)
    (hc : st.cartItems = initialCartItems)
    (hs : st.cartForm.shippingMethod.value = "standard") :
    getTotals st = ⟨"139.98", "5.99", "29.19", "175.16"⟩ := by
  have hsub : cartSubtotal st.cartItems = 139.98 := by
    rw [hc]
    show (0 + 99.99 * 1 + 39.99 * 1 : ℚ) = 139.98
    norm_num
  have hship : shippingCostOf st = 5.99 := by
    unfold shippingCostOf
    rw [hs]
    rfl
  have t1 : toFixed2 (139.98 : ℚ) = "139.98" := by
    rw [toFixed2_round _ 13998 (by rw [round_eq]; norm_num)]
    decide
  have t2 : toFixed2 (5.99 : ℚ) = "5.99" := by
    rw [toFixed2_round _ 599 (by rw [round_eq]; norm_num)]
    decide
  have t3 : toFixed2 (((139.98 : ℚ) + 5.99) * taxRate) = "29.19" := by
    rw [toFixed2_round _ 2919 (by rw [round_eq]; norm_num [taxRate])]
    decide
  have t4 : toFixed2 (((139.98 : ℚ) + 5.99) + ((139.98 : ℚ) + 5.99) * taxRate) = "175.16" := by
    rw [toFixed2_round _ 17516 (by rw [round_eq]; norm_num [taxRate])]
    decide
  unfold getTotals
  rw [hsub, hship, t1, t2, t3, t4]

/-- Claim C3 (amended): for the component cart with standard shipping
and the 0.2 tax rate, getTotals renders subtotal 139.98, shipping
5.99, tax 29.19 and total 175.16 — each figure computed exactly and
rounded to two decimals only at presentation, the total being the
unrounded sum 175.164 rounded once. -/
theorem getTotals_scenario (st : CheckoutState)
    (hc : st.cartItems = initialCartItems)
    (hs : st.cartForm.shippingMethod.value = "standard") :
    getTotals st = ⟨"139.98", "5.99", "29.19", "175.16"⟩ :=
  getTotals_standard_eval st hc hs

/-- Witness for the amended claim C3 at the initial session state. -/
theorem getTotals_scenario_witness :
    getTotals initialState = ⟨"139.98", "5.99", "29.19", "175.16"⟩ :=
  getTotals_scenario initialState rfl rfl

/-- Counterexample to claim C3 as stated: on the claimed scenario the
code renders the total 175.16, not 174.97 (subtotal, shipping and tax
agree with the claim). -/
theorem getTotals_total_cex :
    (getTotals initialState).subtotal = "139.98" ∧
    (getTotals initialState).shipping = "5.99" ∧
    (getTotals initialState).tax = "29.19" ∧
    (getTotals initialState).total = "175.16" ∧
    ¬ (getTotals initialState).total = "174.97" := by
  have h := getTotals_standard_eval initialState rfl rfl
  rw [h]
  refine ⟨rfl, rfl, rfl, rfl, by decide⟩

/-- Claim C10: whenever the selected shipping method matches no entry
of the fixed method list — the empty selection included — getTotals
still returns a complete summary, with shipping rendered as zero and
tax and total computed from the subtotal alone. -/
theorem getTotals_unknownShipping (st : CheckoutState)
    (h : ∀ m ∈ shippingMethods, ¬ m.id = st.cartForm.shippingMethod.value) :
    (getTotals st).shipping = "0.00" ∧
    (getTotals st).subtotal = toFixed2 (cartSubtotal st.cartItems) ∧
    (getTotals st).tax = toFixed2 (cartSubtotal st.cartItems * taxRate) ∧
    (getTotals st).total = toFixed2 (cartSubtotal st.cartItems * (1 + taxRate)) := by
  have hfind : shippingMethods.find?
      (fun m => m.id == st.cartForm.shippingMethod.value) = none := by
    rw [List.find?_eq_none]
    intro m hm
    simpa using h m hm
  have h0 : shippingCostOf st = 0 := by
    unfold shippingCostOf
    rw [hfind]
  refine ⟨?_, rfl, ?_, ?_⟩
  · show toFixed2 (shippingCostOf st) = "0.00"
    rw [h0, toFixed2_round _ 0 (by rw [round_eq]; norm_num)]
    decide
  · show toFixed2 ((cartSubtotal st.cartItems + shippingCostOf st) * taxRate) = _
    rw [h0]
    congr 1
    ring
  · show toFixed2 ((cartSubtotal st.cartItems + shippingCostOf st) +
      (cartSubtotal st.cartItems + shippingCostOf st) * taxRate) = _
    rw [h0]
    congr 1
    ring

/-- The session with no shipping method selected. -/
def noShipSelected : CheckoutState :=
  { initialState with
    cartForm := { items := ⟨initialCartItems, false⟩, shippingMethod := ⟨"", false⟩ } }

/-- Witness for claim C10 at the empty shipping selection. -/
theorem getTotals_unknownShipping_witness :
    (getTotals noShipSelected).shipping = "0.00" ∧
    (getTotals noShipSelected).total =
      toFixed2 (cartSubtotal noShipSelected.cartItems * (1 + taxRate)) :=
  ⟨(getTotals_unknownShipping noShipSelected (by decide)).1,
   (getTotals_unknownShipping noShipSelected (by decide)).2.2.2⟩
